import Mathlib

/-!
Shallow embedding of the CountriesDB Go validator client
(`validator.go`, `types.go`).  The four public validation operations and
the internal `post` helper are modelled as pure functions.  The HTTP
transport is abstracted by a `PostOutcome` argument describing what the
network and the JSON body decoders would yield for the single request a
call can issue; the `sent` field of a call record is `none` exactly when
the internal `post` helper is never invoked.  Go's in-place mutation of
the caller's `codes` slice is modelled by the `codesAfter` field: the
contents of that slice when the call returns.
-/

namespace CountriesDB

/-- Models the Go byte length of one character in a UTF-8 string: the
number of bytes of its UTF-8 encoding. -/
def charSize (c : Char) : Nat :=
  if c.toNat ≤ 0x7F then 1
  else if c.toNat ≤ 0x7FF then 2
  else if c.toNat ≤ 0xFFFF then 3
  else 4

/-- Models Go `len(s)` for a string: its UTF-8 byte length. -/
def goLen (s : String) : Nat := (s.data.map charSize).sum

/-- Models Go `strings.ToUpper` on one character: the ASCII case
mapping together with the dotless-i mapping U+0131 → I, a
byte-length-changing case of Go's full Unicode simple case mapping.
The remaining non-ASCII mappings of `unicode.ToUpper` are not
modelled: theorems below that depend on the map's exact values
restrict their codes to ASCII, where this model agrees with Go
exactly; the others use the map only structurally. -/
def upChar (c : Char) : Char :=
  if 97 ≤ c.toNat ∧ c.toNat ≤ 122 then Char.ofNat (c.toNat - 32)
  else if c.toNat = 0x131 then 'I'
  else c

/-- Models Go `strings.ToUpper` on a string. -/
def ToUpper (s : String) : String := ⟨s.data.map upChar⟩

/-- Whether every character of `s` is ASCII (single-byte UTF-8); on
such strings `ToUpper` agrees with Go's `strings.ToUpper` exactly. -/
def allASCII (s : String) : Bool := s.data.all (fun c => decide (c.toNat ≤ 127))

/-- Mirrors `ValidationResult` from `types.go`. -/
structure ValidationResult where
  Valid : Bool
  Message : String
  Code : String
deriving DecidableEq, Repr

/-- Go zero value of `ValidationResult`. -/
def zeroResult : ValidationResult := ⟨false, "", ""⟩

/-- Mirrors `CountryOptions` from `types.go`. -/
structure CountryOptions where
  FollowUpward : Bool
deriving DecidableEq, Repr

/-- Mirrors `SubdivisionOptions` from `types.go`. -/
structure SubdivisionOptions where
  FollowRelated : Bool
  AllowParentSelection : Bool
deriving DecidableEq, Repr

/-- Mirrors `multiResult` from `types.go`; `Results` is an `Option` so
that Go's nil slice (zero value, or a response without a `results`
field) is distinguished from an empty non-nil slice. -/
structure multiResult where
  Results : Option (List ValidationResult)
deriving DecidableEq, Repr

/-- Mirrors `apiError` from `types.go`. -/
structure apiError where
  Message : String
deriving DecidableEq, Repr

/-- JSON values appearing in the outbound request payloads this client
builds. -/
inductive JsonVal where
  | str (s : String)
  | bool (b : Bool)
  | arr (elems : List String)
deriving DecidableEq, Repr

/-- An outbound JSON payload: the key-value pairs of the Go map literal. -/
abbrev Payload := List (String × JsonVal)

/-- Behaviour of the HTTP transport and of the response-body decoders
for the one POST a call can issue: either `httpClient.Do` fails
(connection failure, context cancellation or timeout), or a response
arrives carrying a status code, the result of decoding its body as the
`apiError` envelope, and the result of decoding it as the expected
output type `α`. -/
inductive PostOutcome (α : Type) where
  | transportError (msg : String)
  | response (status : Nat) (errDecode : Except String apiError)
      (outDecode : Except String α)

/-- Models the internal `post` helper of `validator.go` from the point
the request has been issued (all four public callers pass a non-nil
`out`, so the `out == nil` branch is never reached). -/
def post {α : Type} (outcome : PostOutcome α) : Except String α :=
  match outcome with
  | .transportError e => .error e
  | .response status errDecode outDecode =>
      if 400 ≤ status then
        match errDecode with
        | .error _ => .error ("countriesdb: http " ++ toString status)
        | .ok a =>
            if a.Message = "" then .error ("countriesdb: http " ++ toString status)
            else .error a.Message
      else outDecode

/-- Observable outcome of a single-code call: the returned result and
error, and the request actually issued (`none` when the `post` helper
was never invoked). -/
structure SingleCall where
  result : ValidationResult
  error : Option String
  sent : Option (String × Payload)
deriving DecidableEq, Repr

/-- Observable outcome of a batch call: the returned result slice
(`none` models Go's nil slice), the returned error, the request actually
issued, and the contents of the caller's `codes` slice when the call
returns. -/
structure BatchCall where
  results : Option (List ValidationResult)
  error : Option String
  sent : Option (String × Payload)
  codesAfter : List String
deriving DecidableEq, Repr

/-- Models `Validator.ValidateCountry` (`validator.go`). -/
def ValidateCountry (code : String) (opts : CountryOptions)
    (net : PostOutcome ValidationResult) : SingleCall :=
  if goLen code ≠ 2 then
    { result := { Valid := false, Message := "Invalid country code.", Code := "" },
      error := none, sent := none }
  else
    let payload : Payload := [("code", .str (ToUpper code)),
                              ("follow_upward", .bool opts.FollowUpward)]
    match post net with
    | .ok r => { result := r, error := none,
                 sent := some ("/api/validate/country", payload) }
    | .error e => { result := zeroResult, error := some e,
                    sent := some ("/api/validate/country", payload) }

/-- Models the format-check-and-uppercase loop of `ValidateCountries`:
returns the final contents of the caller's `codes` slice together with
whether the loop aborted on a wrong-length code (elements from the first
offending one onwards are left untouched, earlier ones have already been
uppercased in place). -/
def upperScan : List String → List String × Bool
  | [] => ([], false)
  | c :: rest =>
      if goLen c ≠ 2 then (c :: rest, true)
      else
        let s := upperScan rest
        (ToUpper c :: s.1, s.2)

/-- Models `Validator.ValidateCountries` (`validator.go`). -/
def ValidateCountries (codes : List String) (opts : CountryOptions)
    (net : PostOutcome multiResult) : BatchCall :=
  if codes.length = 0 then
    { results := some [], error := none, sent := none, codesAfter := codes }
  else
    let s := upperScan codes
    if s.2 then
      { results := none,
        error := some "invalid country code format. All codes must be 2-character strings",
        sent := none, codesAfter := s.1 }
    else
      let payload : Payload := [("code", .arr s.1), ("follow_upward", .bool false)]
      match post net with
      | .ok m => { results := m.Results, error := none,
                   sent := some ("/api/validate/country", payload), codesAfter := s.1 }
      | .error e => { results := none, error := some e,
                      sent := some ("/api/validate/country", payload), codesAfter := s.1 }

/-- Models `Validator.ValidateSubdivision` (`validator.go`). -/
def ValidateSubdivision (code : String) (country : String)
    (opts : SubdivisionOptions) (net : PostOutcome ValidationResult) : SingleCall :=
  if goLen country ≠ 2 then
    { result := { Valid := false, Message := "Invalid country code.", Code := "" },
      error := none, sent := none }
  else
    let payload : Payload := [("code", .str code),
                              ("country", .str (ToUpper country)),
                              ("follow_related", .bool opts.FollowRelated),
                              ("allow_parent_selection", .bool opts.AllowParentSelection)]
    match post net with
    | .ok r => { result := r, error := none,
                 sent := some ("/api/validate/subdivision", payload) }
    | .error e => { result := zeroResult, error := some e,
                    sent := some ("/api/validate/subdivision", payload) }

/-- Models the copy loop of `ValidateSubdivisions` that builds
`payloadCodes` in a fresh slice (its branch on the empty string copies
the element unchanged either way). -/
def buildPayloadCodes : List String → List String
  | [] => []
  | c :: rest => (if c = "" then "" else c) :: buildPayloadCodes rest

/-- Models `Validator.ValidateSubdivisions` (`validator.go`); the
caller's `codes` slice is never written to, so `codesAfter` is `codes`
on every path. -/
def ValidateSubdivisions (codes : List String) (country : String)
    (opts : SubdivisionOptions) (net : PostOutcome multiResult) : BatchCall :=
  if goLen country ≠ 2 then
    { results := none, error := some "invalid country code", sent := none,
      codesAfter := codes }
  else if codes.length = 0 then
    { results := some [], error := none, sent := none, codesAfter := codes }
  else
    let payload : Payload := [("code", .arr (buildPayloadCodes codes)),
                              ("country", .str (ToUpper country)),
                              ("follow_related", .bool false),
                              ("allow_parent_selection", .bool opts.AllowParentSelection)]
    match post net with
    | .ok m => { results := m.Results, error := none,
                 sent := some ("/api/validate/subdivision", payload), codesAfter := codes }
    | .error e => { results := none, error := some e,
                    sent := some ("/api/validate/subdivision", payload), codesAfter := codes }

/-! Helper lemmas about the character-level model. -/

theorem toNat_ofNat_sub32 (m : Nat) (h1 : 97 ≤ m) (h2 : m ≤ 122) :
    (Char.ofNat (m - 32)).toNat = m - 32 := by
  interval_cases m <;> decide

theorem upChar_toNat (c : Char) (h : 97 ≤ c.toNat ∧ c.toNat ≤ 122) :
    (upChar c).toNat = c.toNat - 32 := by
  unfold upChar
  rw [if_pos h]
  exact toNat_ofNat_sub32 c.toNat h.1 h.2

theorem upChar_fix (c : Char) (h1 : ¬ (97 ≤ c.toNat ∧ c.toNat ≤ 122))
    (h2 : c.toNat ≠ 0x131) : upChar c = c := by
  unfold upChar
  rw [if_neg h1, if_neg h2]

theorem upChar_dotlessI (c : Char) (h1 : ¬ (97 ≤ c.toNat ∧ c.toNat ≤ 122))
    (h2 : c.toNat = 0x131) : upChar c = 'I' := by
  unfold upChar
  rw [if_neg h1, if_pos h2]

theorem upChar_idem (c : Char) : upChar (upChar c) = upChar c := by
  by_cases h : 97 ≤ c.toNat ∧ c.toNat ≤ 122
  · have h2 := upChar_toNat c h
    refine upChar_fix (upChar c) ?_ ?_ <;> rw [h2] <;> omega
  · by_cases hd : c.toNat = 0x131
    · rw [upChar_dotlessI c h hd]
      decide
    · rw [upChar_fix c h hd]
      exact upChar_fix c h hd

theorem charSize_upChar_ascii (c : Char) (h : c.toNat ≤ 127) :
    charSize (upChar c) = charSize c := by
  by_cases hl : 97 ≤ c.toNat ∧ c.toNat ≤ 122
  · have hu := upChar_toNat c hl
    unfold charSize
    rw [hu, if_pos (by omega), if_pos (by omega)]
  · rw [upChar_fix c hl (by omega)]

theorem goLen_ToUpper_ascii (s : String) (h : allASCII s = true) :
    goLen (ToUpper s) = goLen s := by
  have hall : ∀ c ∈ s.data, c.toNat ≤ 127 := by
    unfold allASCII at h
    intro c hc
    exact of_decide_eq_true (List.all_eq_true.mp h c hc)
  show ((s.data.map upChar).map charSize).sum = (s.data.map charSize).sum
  rw [List.map_map]
  congr 1
  apply List.map_congr_left
  intro c hc
  exact charSize_upChar_ascii c (hall c hc)

theorem ToUpper_idem (s : String) : ToUpper (ToUpper s) = ToUpper s := by
  show String.mk ((s.data.map upChar).map upChar) = String.mk (s.data.map upChar)
  rw [List.map_map]
  congr 1
  apply List.map_congr_left
  intro c _
  exact upChar_idem c

/-! Helper lemmas about the format-check-and-uppercase loop. -/

theorem upperScan_allGood (codes : List String) (h : ∀ c ∈ codes, goLen c = 2) :
    upperScan codes = (codes.map ToUpper, false) := by
  induction codes with
  | nil => rfl
  | cons c rest ih =>
      have hc : goLen c = 2 := h c (List.mem_cons_self c rest)
      have hr := ih (fun x hx => h x (List.mem_cons_of_mem c hx))
      unfold upperScan
      rw [if_neg (by omega)]
      simp [hr]

theorem upperScan_firstBad (pre : List String) (bad : String) (rest : List String)
    (hpre : ∀ c ∈ pre, goLen c = 2) (hbad : goLen bad ≠ 2) :
    upperScan (pre ++ bad :: rest) = (pre.map ToUpper ++ bad :: rest, true) := by
  induction pre with
  | nil =>
      rw [List.nil_append]
      simp only [upperScan]
      rw [if_pos hbad]
      simp
  | cons c pre ih =>
      have hc : goLen c = 2 := hpre c (List.mem_cons_self c pre)
      have hr := ih (fun x hx => hpre x (List.mem_cons_of_mem c hx))
      rw [List.cons_append]
      simp only [upperScan]
      rw [if_neg (by omega)]
      simp [hr]

theorem upperScan_flag_of_bad (codes : List String)
    (h : ∃ c ∈ codes, goLen c ≠ 2) : (upperScan codes).2 = true := by
  induction codes with
  | nil => simp at h
  | cons c rest ih =>
      by_cases hc : goLen c ≠ 2
      · unfold upperScan
        rw [if_pos hc]
      · unfold upperScan
        rw [if_neg hc]
        apply ih
        rcases h with ⟨x, hx, hxbad⟩
        rcases List.mem_cons.mp hx with heq | hmem
        · exact absurd (heq ▸ hxbad) hc
        · exact ⟨x, hmem, hxbad⟩

/-! Helper lemmas about `post` and the requests the operations issue. -/

theorem post_ge400_error {α : Type} (status : Nat)
    (errDecode : Except String apiError) (outDecode : Except String α)
    (h : 400 ≤ status) :
    ∃ msg, post (PostOutcome.response status errDecode outDecode) =
        Except.error msg := by
  simp only [post]
  rw [if_pos h]
  cases errDecode with
  | error e => exact ⟨"countriesdb: http " ++ toString status, by simp⟩
  | ok a =>
      by_cases hm : a.Message = ""
      · exact ⟨"countriesdb: http " ++ toString status, by simp [hm]⟩
      · exact ⟨a.Message, by simp [hm]⟩

theorem validateCountries_sent (codes : List String) (opts : CountryOptions)
    (net : PostOutcome multiResult) :
    (ValidateCountries codes opts net).sent = none ∨
    (ValidateCountries codes opts net).sent =
      some ("/api/validate/country",
        [("code", JsonVal.arr (upperScan codes).1),
         ("follow_upward", JsonVal.bool false)]) := by
  by_cases h0 : codes.length = 0
  · left
    simp [ValidateCountries, h0]
  · by_cases hf : (upperScan codes).2 = true
    · left
      simp [ValidateCountries, h0, hf]
    · right
      cases hp : post net <;> simp [ValidateCountries, h0, hf, hp]

theorem validateSubdivisions_sent (codes : List String) (country : String)
    (opts : SubdivisionOptions) (net : PostOutcome multiResult) :
    (ValidateSubdivisions codes country opts net).sent = none ∨
    (ValidateSubdivisions codes country opts net).sent =
      some ("/api/validate/subdivision",
        [("code", JsonVal.arr (buildPayloadCodes codes)),
         ("country", JsonVal.str (ToUpper country)),
         ("follow_related", JsonVal.bool false),
         ("allow_parent_selection", JsonVal.bool opts.AllowParentSelection)]) := by
  by_cases hc : goLen country ≠ 2
  · left
    simp [ValidateSubdivisions, hc]
  · by_cases h0 : codes.length = 0
    · left
      simp [ValidateSubdivisions, hc, h0]
    · right
      cases hp : post net <;> simp [ValidateSubdivisions, hc, h0, hp]

/-! Claim theorems. -/

/-- C1: for every options value and transport behaviour, and every code
whose Go byte length is not 2, `ValidateCountry` returns
`{valid: false, message: "Invalid country code."}` with nil error and
never invokes the `post` helper (`sent = none`). -/
theorem validateCountry_shortCircuit (code : String) (opts : CountryOptions)
    (net : PostOutcome ValidationResult) (h : goLen code ≠ 2) :
    ValidateCountry code opts net =
      { result := { Valid := false, Message := "Invalid country code.", Code := "" },
        error := none, sent := none } := by
  unfold ValidateCountry
  rw [if_pos h]

/-- Witness for C1 at code "USA". -/
theorem validateCountry_shortCircuit_witness :
    goLen "USA" ≠ 2 ∧
    ValidateCountry "USA" ⟨false⟩ (PostOutcome.transportError "refused") =
      { result := { Valid := false, Message := "Invalid country code.", Code := "" },
        error := none, sent := none } :=
  ⟨by decide,
   validateCountry_shortCircuit "USA" ⟨false⟩ (PostOutcome.transportError "refused")
     (by decide)⟩

/-- C3: for every codes list (the empty list included) and every country
whose Go byte length is not 2, `ValidateSubdivisions` returns a nil
result slice and the non-nil error "invalid country code" without
invoking the `post` helper; the country-length check fires even when
`codes` is empty, so it precedes the empty-codes check. -/
theorem validateSubdivisions_badCountry (codes : List String) (country : String)
    (opts : SubdivisionOptions) (net : PostOutcome multiResult)
    (h : goLen country ≠ 2) :
    ValidateSubdivisions codes country opts net =
      { results := none, error := some "invalid country code", sent := none,
        codesAfter := codes } := by
  unfold ValidateSubdivisions
  rw [if_pos h]

/-- Witness for C3 at country "USA", both with the spec's example list
and with the empty codes list (showing the country check precedes the
empty-codes fast path). -/
theorem validateSubdivisions_badCountry_witness :
    goLen "USA" ≠ 2 ∧
    ValidateSubdivisions ["US-CA"] "USA" ⟨false, false⟩
        (PostOutcome.transportError "refused") =
      { results := none, error := some "invalid country code", sent := none,
        codesAfter := ["US-CA"] } ∧
    ValidateSubdivisions [] "USA" ⟨false, false⟩
        (PostOutcome.transportError "refused") =
      { results := none, error := some "invalid country code", sent := none,
        codesAfter := [] } :=
  ⟨by decide,
   validateSubdivisions_badCountry ["US-CA"] "USA" ⟨false, false⟩
     (PostOutcome.transportError "refused") (by decide),
   validateSubdivisions_badCountry [] "USA" ⟨false, false⟩
     (PostOutcome.transportError "refused") (by decide)⟩

/-- C2: for every non-empty codes list containing at least one code whose
Go byte length is not 2, `ValidateCountries` returns a nil result slice
and the non-nil format error, and never invokes the `post` helper — no
partial results and no network call, whatever the transport would do. -/
theorem validateCountries_formatError (codes : List String) (opts : CountryOptions)
    (net : PostOutcome multiResult) (hne : codes ≠ [])
    (hbad : ∃ c ∈ codes, goLen c ≠ 2) :
    (ValidateCountries codes opts net).results = none ∧
    (ValidateCountries codes opts net).error =
      some "invalid country code format. All codes must be 2-character strings" ∧
    (ValidateCountries codes opts net).sent = none := by
  have hflag := upperScan_flag_of_bad codes hbad
  have hlen : ¬ codes.length = 0 := by
    intro h0
    exact hne (List.length_eq_zero.mp h0)
  unfold ValidateCountries
  rw [if_neg hlen]
  simp [hflag]

/-- Witness for C2 at the spec's example ["US", "BAD1"]. -/
theorem validateCountries_formatError_witness :
    (["US", "BAD1"] : List String) ≠ [] ∧
    ((ValidateCountries ["US", "BAD1"] ⟨false⟩
        (PostOutcome.transportError "refused")).results = none ∧
     (ValidateCountries ["US", "BAD1"] ⟨false⟩
        (PostOutcome.transportError "refused")).error =
       some "invalid country code format. All codes must be 2-character strings" ∧
     (ValidateCountries ["US", "BAD1"] ⟨false⟩
        (PostOutcome.transportError "refused")).sent = none) :=
  ⟨by decide,
   validateCountries_formatError ["US", "BAD1"] ⟨false⟩
     (PostOutcome.transportError "refused") (by decide) (by decide)⟩

/-- C4: for every subdivision code, options value and transport
behaviour, `ValidateSubdivision` with a country whose Go byte length is
not 2 returns `{valid: false, message: "Invalid country code."}` with
nil error and no call to `post`; and with a well-formed country the
subdivision code is never shape-checked: any string, the empty string
included, appears as-is in the outbound payload. -/
theorem validateSubdivision_badCountry_passthrough (code country : String)
    (opts : SubdivisionOptions) (net : PostOutcome ValidationResult) :
    (goLen country ≠ 2 →
      ValidateSubdivision code country opts net =
        { result := { Valid := false, Message := "Invalid country code.", Code := "" },
          error := none, sent := none }) ∧
    (goLen country = 2 →
      (ValidateSubdivision code country opts net).sent =
        some ("/api/validate/subdivision",
          [("code", JsonVal.str code), ("country", JsonVal.str (ToUpper country)),
           ("follow_related", JsonVal.bool opts.FollowRelated),
           ("allow_parent_selection", JsonVal.bool opts.AllowParentSelection)])) := by
  constructor
  · intro h
    unfold ValidateSubdivision
    rw [if_pos h]
  · intro h
    unfold ValidateSubdivision
    rw [if_neg (by omega)]
    cases hp : post net <;> simp

/-- Witness for C4: the bad-country branch at country "USA", and the
pass-through branch at country "us" with the empty subdivision code. -/
theorem validateSubdivision_badCountry_passthrough_witness :
    goLen "USA" ≠ 2 ∧
    ValidateSubdivision "US-CA" "USA" ⟨false, false⟩
        (PostOutcome.transportError "refused") =
      { result := { Valid := false, Message := "Invalid country code.", Code := "" },
        error := none, sent := none } ∧
    goLen "us" = 2 ∧
    (ValidateSubdivision "" "us" ⟨true, true⟩
        (PostOutcome.transportError "refused")).sent =
      some ("/api/validate/subdivision",
        [("code", JsonVal.str ""), ("country", JsonVal.str (ToUpper "us")),
         ("follow_related", JsonVal.bool true),
         ("allow_parent_selection", JsonVal.bool true)]) :=
  ⟨by decide,
   (validateSubdivision_badCountry_passthrough "US-CA" "USA" ⟨false, false⟩
      (PostOutcome.transportError "refused")).1 (by decide),
   by decide,
   (validateSubdivision_badCountry_passthrough "" "us" ⟨true, true⟩
      (PostOutcome.transportError "refused")).2 (by decide)⟩

/-- C5: for every response with status ≥ 400 the `post` helper returns a
non-nil error: exactly the server's message when the error envelope
decodes with a non-empty message, and the generic
"countriesdb: http <status>" text (carrying the numeric status) when the
body is undecodable or the decoded message is empty; the caller-expected
output decoding is never consulted. -/
theorem post_errorStatus {α : Type} (status : Nat)
    (errDecode : Except String apiError) (outDecode : Except String α)
    (h : 400 ≤ status) :
    (∀ m : String, errDecode = Except.ok ⟨m⟩ → m ≠ "" →
        post (PostOutcome.response status errDecode outDecode) = Except.error m) ∧
    (((∃ e, errDecode = Except.error e) ∨ errDecode = Except.ok ⟨""⟩) →
        post (PostOutcome.response status errDecode outDecode) =
          Except.error ("countriesdb: http " ++ toString status)) ∧
    (∃ msg, post (PostOutcome.response status errDecode outDecode) =
        Except.error msg) ∧
    (∀ outDecode2 : Except String α,
        post (PostOutcome.response status errDecode outDecode) =
          post (PostOutcome.response status errDecode outDecode2)) := by
  refine ⟨?_, ?_, ?_, ?_⟩
  · intro m hm hne
    subst hm
    simp only [post]
    rw [if_pos h]
    simp [hne]
  · intro hcase
    simp only [post]
    rw [if_pos h]
    rcases hcase with ⟨e, he⟩ | he <;> subst he <;> simp
  · exact post_ge400_error status errDecode outDecode h
  · intro od2
    simp only [post]
    rw [if_pos h, if_pos h]

/-- Witness for C5: status 404 with body `{"message":"not found"}`
surfaces "not found"; status 500 with an undecodable body surfaces the
generic "countriesdb: http 500". -/
theorem post_errorStatus_witness :
    (400 ≤ 404 ∧
      post (PostOutcome.response 404 (Except.ok ⟨"not found"⟩)
          (Except.ok zeroResult)) = Except.error "not found") ∧
    (400 ≤ 500 ∧
      post (PostOutcome.response 500 (Except.error "EOF")
          (Except.ok zeroResult)) = Except.error "countriesdb: http 500") :=
  ⟨⟨by decide,
    (post_errorStatus 404 (Except.ok ⟨"not found"⟩) (Except.ok zeroResult)
       (by decide)).1 "not found" rfl (by decide)⟩,
   ⟨by decide,
    (post_errorStatus 500 (Except.error "EOF") (Except.ok zeroResult)
       (by decide)).2.1 (Or.inl ⟨"EOF", rfl⟩)⟩⟩

/-- C6 counterexample: a status-300 response is not 2xx, yet
`ValidateCountry` on the well-formed code "US" returns the decoded
result with a nil error, contradicting the claim that every non-2xx
status response yields a non-nil error and a zero-value result (the
code branches on status ≥ 400, not on 2xx). -/
theorem validateCountry_non2xx_counterexample :
    ¬ (200 ≤ 300 ∧ 300 ≤ 299) ∧
    goLen "US" = 2 ∧
    (ValidateCountry "US" ⟨false⟩
        (PostOutcome.response 300 (Except.error "EOF")
          (Except.ok ⟨true, "", "US"⟩))).error = none ∧
    (ValidateCountry "US" ⟨false⟩
        (PostOutcome.response 300 (Except.error "EOF")
          (Except.ok ⟨true, "", "US"⟩))).result = ⟨true, "", "US"⟩ := by
  decide

/-- C6 (amended): for every well-formed (byte-length-2) code,
`ValidateCountry` returns the decoded result with nil error on any
response with status < 400 whose body decodes (all 2xx responses in
particular), and returns a non-nil error with the zero-value result on
every response with status ≥ 400, as well as on connection failure and
context cancellation/timeout (transport error). -/
theorem validateCountry_wellFormed (code : String) (opts : CountryOptions)
    (h : goLen code = 2) :
    (∀ (status : Nat) (errDecode : Except String apiError) (r : ValidationResult),
        status < 400 →
        (ValidateCountry code opts
            (PostOutcome.response status errDecode (Except.ok r))).result = r ∧
        (ValidateCountry code opts
            (PostOutcome.response status errDecode (Except.ok r))).error = none) ∧
    (∀ (status : Nat) (errDecode : Except String apiError)
        (outDecode : Except String ValidationResult), 400 ≤ status →
        (ValidateCountry code opts
            (PostOutcome.response status errDecode outDecode)).result = zeroResult ∧
        ∃ e, (ValidateCountry code opts
            (PostOutcome.response status errDecode outDecode)).error = some e) ∧
    (∀ msg : String,
        (ValidateCountry code opts (PostOutcome.transportError msg)).result =
          zeroResult ∧
        (ValidateCountry code opts (PostOutcome.transportError msg)).error =
          some msg) := by
  have h2 : ¬ (goLen code ≠ 2) := by omega
  refine ⟨?_, ?_, ?_⟩
  · intro status errDecode r hs
    have hp : post (PostOutcome.response status errDecode (Except.ok r)) =
        Except.ok r := by
      simp only [post]
      rw [if_neg (by omega)]
    unfold ValidateCountry
    rw [if_neg h2, hp]
    exact ⟨rfl, rfl⟩
  · intro status errDecode outDecode hs
    obtain ⟨msg, hp⟩ := post_ge400_error status errDecode outDecode hs
    unfold ValidateCountry
    rw [if_neg h2, hp]
    exact ⟨rfl, msg, rfl⟩
  · intro msg
    unfold ValidateCountry
    rw [if_neg h2]
    exact ⟨rfl, rfl⟩

/-- Witness for the amended C6 at code "US": a 200 response with a
decodable body, a 503 response, and a cancelled transport. -/
theorem validateCountry_wellFormed_witness :
    goLen "US" = 2 ∧
    (ValidateCountry "US" ⟨false⟩
        (PostOutcome.response 200 (Except.error "EOF")
          (Except.ok ⟨true, "", "US"⟩))).result = ⟨true, "", "US"⟩ ∧
    (ValidateCountry "US" ⟨false⟩
        (PostOutcome.response 200 (Except.error "EOF")
          (Except.ok ⟨true, "", "US"⟩))).error = none ∧
    (ValidateCountry "US" ⟨false⟩
        (PostOutcome.response 503 (Except.error "EOF")
          (Except.ok ⟨true, "", "US"⟩))).result = zeroResult ∧
    (∃ e, (ValidateCountry "US" ⟨false⟩
        (PostOutcome.response 503 (Except.error "EOF")
          (Except.ok ⟨true, "", "US"⟩))).error = some e) ∧
    (ValidateCountry "US" ⟨false⟩
        (PostOutcome.transportError "context canceled")).error =
      some "context canceled" :=
  ⟨by decide,
   ((validateCountry_wellFormed "US" ⟨false⟩ (by decide)).1 200
      (Except.error "EOF") ⟨true, "", "US"⟩ (by decide)).1,
   ((validateCountry_wellFormed "US" ⟨false⟩ (by decide)).1 200
      (Except.error "EOF") ⟨true, "", "US"⟩ (by decide)).2,
   ((validateCountry_wellFormed "US" ⟨false⟩ (by decide)).2.1 503
      (Except.error "EOF") (Except.ok ⟨true, "", "US"⟩) (by decide)).1,
   ((validateCountry_wellFormed "US" ⟨false⟩ (by decide)).2.1 503
      (Except.error "EOF") (Except.ok ⟨true, "", "US"⟩) (by decide)).2,
   ((validateCountry_wellFormed "US" ⟨false⟩ (by decide)).2.2
      "context canceled").2⟩

/-- C7: the batch operations hard-disable the hierarchy-traversal flags
in every outbound payload, whatever the caller's options:
`ValidateCountries` sends `follow_upward: false` and
`ValidateSubdivisions` sends `follow_related: false`, while
`allow_parent_selection` is passed through from the options unchanged. -/
theorem batch_hardDisabled_flags :
    (∀ (codes : List String) (opts : CountryOptions)
        (net : PostOutcome multiResult) (p : String) (pay : Payload),
        (ValidateCountries codes opts net).sent = some (p, pay) →
        List.lookup "follow_upward" pay = some (JsonVal.bool false)) ∧
    (∀ (codes : List String) (country : String) (opts : SubdivisionOptions)
        (net : PostOutcome multiResult) (p : String) (pay : Payload),
        (ValidateSubdivisions codes country opts net).sent = some (p, pay) →
        List.lookup "follow_related" pay = some (JsonVal.bool false) ∧
        List.lookup "allow_parent_selection" pay =
          some (JsonVal.bool opts.AllowParentSelection)) := by
  constructor
  · intro codes opts net p pay hsent
    rcases validateCountries_sent codes opts net with hn | hs
    · rw [hn] at hsent
      cases hsent
    · rw [hs] at hsent
      simp only [Option.some.injEq, Prod.mk.injEq] at hsent
      obtain ⟨-, hpay⟩ := hsent
      subst hpay
      rfl
  · intro codes country opts net p pay hsent
    rcases validateSubdivisions_sent codes country opts net with hn | hs
    · rw [hn] at hsent
      cases hsent
    · rw [hs] at hsent
      simp only [Option.some.injEq, Prod.mk.injEq] at hsent
      obtain ⟨-, hpay⟩ := hsent
      subst hpay
      exact ⟨rfl, rfl⟩

/-- Witness for C7: a batch country call with `FollowUpward := true`
still sends `follow_upward: false`, and a batch subdivision call with
`FollowRelated := true` and `AllowParentSelection := true` sends
`follow_related: false` and `allow_parent_selection: true`. -/
theorem batch_hardDisabled_flags_witness :
    (ValidateCountries ["us"] ⟨true⟩ (PostOutcome.transportError "refused")).sent =
      some ("/api/validate/country",
        [("code", JsonVal.arr ["US"]), ("follow_upward", JsonVal.bool false)]) ∧
    List.lookup "follow_upward"
        [("code", JsonVal.arr ["US"]), ("follow_upward", JsonVal.bool false)] =
      some (JsonVal.bool false) ∧
    (ValidateSubdivisions ["US-CA"] "us" ⟨true, true⟩
        (PostOutcome.transportError "refused")).sent =
      some ("/api/validate/subdivision",
        [("code", JsonVal.arr ["US-CA"]), ("country", JsonVal.str "US"),
         ("follow_related", JsonVal.bool false),
         ("allow_parent_selection", JsonVal.bool true)]) ∧
    List.lookup "follow_related"
        [("code", JsonVal.arr ["US-CA"]), ("country", JsonVal.str "US"),
         ("follow_related", JsonVal.bool false),
         ("allow_parent_selection", JsonVal.bool true)] =
      some (JsonVal.bool false) ∧
    List.lookup "allow_parent_selection"
        [("code", JsonVal.arr ["US-CA"]), ("country", JsonVal.str "US"),
         ("follow_related", JsonVal.bool false),
         ("allow_parent_selection", JsonVal.bool true)] =
      some (JsonVal.bool true) :=
  ⟨by decide,
   batch_hardDisabled_flags.1 ["us"] ⟨true⟩ (PostOutcome.transportError "refused")
     "/api/validate/country"
     [("code", JsonVal.arr ["US"]), ("follow_upward", JsonVal.bool false)]
     (by decide),
   by decide,
   (batch_hardDisabled_flags.2 ["US-CA"] "us" ⟨true, true⟩
     (PostOutcome.transportError "refused") "/api/validate/subdivision"
     [("code", JsonVal.arr ["US-CA"]), ("country", JsonVal.str "US"),
      ("follow_related", JsonVal.bool false),
      ("allow_parent_selection", JsonVal.bool true)] (by decide)).1,
   (batch_hardDisabled_flags.2 ["US-CA"] "us" ⟨true, true⟩
     (PostOutcome.transportError "refused") "/api/validate/subdivision"
     [("code", JsonVal.arr ["US-CA"]), ("country", JsonVal.str "US"),
      ("follow_related", JsonVal.bool false),
      ("allow_parent_selection", JsonVal.bool true)] (by decide)).2⟩

/-- C8: with an empty codes list `ValidateCountries` returns an empty
non-nil result slice, nil error and no network call, for every options
value and transport behaviour; with an empty codes list and a
well-formed country, `ValidateSubdivisions` does the same. -/
theorem emptyCodes_fastPath (country : String) (optsC : CountryOptions)
    (optsS : SubdivisionOptions) (netC netS : PostOutcome multiResult)
    (h : goLen country = 2) :
    ValidateCountries [] optsC netC =
      { results := some [], error := none, sent := none, codesAfter := [] } ∧
    ValidateSubdivisions [] country optsS netS =
      { results := some [], error := none, sent := none, codesAfter := [] } := by
  constructor
  · rfl
  · simp [ValidateSubdivisions, h]

/-- Witness for C8 at country "US". -/
theorem emptyCodes_fastPath_witness :
    goLen "US" = 2 ∧
    ValidateCountries [] ⟨false⟩ (PostOutcome.transportError "refused") =
      { results := some [], error := none, sent := none, codesAfter := [] } ∧
    ValidateSubdivisions [] "US" ⟨false, false⟩
        (PostOutcome.transportError "refused") =
      { results := some [], error := none, sent := none, codesAfter := [] } :=
  ⟨by decide,
   emptyCodes_fastPath "US" ⟨false⟩ ⟨false, false⟩
     (PostOutcome.transportError "refused") (PostOutcome.transportError "refused")
     (by decide)⟩

/-- C9 counterexample: the non-ASCII code "ı" (U+0131, two UTF-8 bytes,
so it passes the length-2 check) is uppercased by Go to the one-byte
"I"; `ValidateCountry` on "ı" issues a request whose payload carries
"I", while `ValidateCountry` on its uppercase form "I" short-circuits
with no request at all — the two calls do not produce identical
outbound payloads, refuting the claim as stated. -/
theorem validateCountry_uppercases_counterexample :
    goLen "ı" = 2 ∧
    ToUpper "ı" = "I" ∧
    (ValidateCountry "ı" ⟨false⟩ (PostOutcome.transportError "refused")).sent =
      some ("/api/validate/country",
        [("code", JsonVal.str "I"), ("follow_upward", JsonVal.bool false)]) ∧
    (ValidateCountry (ToUpper "ı") ⟨false⟩
        (PostOutcome.transportError "refused")).sent = none ∧
    ValidateCountry (ToUpper "ı") ⟨false⟩ (PostOutcome.transportError "refused") ≠
      ValidateCountry "ı" ⟨false⟩ (PostOutcome.transportError "refused") := by
  decide

/-- C9 (amended): for every byte-length-2 code made of ASCII characters
(where the model of `strings.ToUpper` is exact), `ValidateCountry`
uppercases the code before sending: the outbound payload carries
`ToUpper code`, the whole call on `ToUpper code` equals the call on
`code` with the same options and transport (so "us" and "US" produce
identical payloads), and uppercasing is idempotent. -/
theorem validateCountry_uppercases (code : String) (opts : CountryOptions)
    (net : PostOutcome ValidationResult) (ha : allASCII code = true)
    (h : goLen code = 2) :
    (ValidateCountry code opts net).sent =
      some ("/api/validate/country",
        [("code", JsonVal.str (ToUpper code)),
         ("follow_upward", JsonVal.bool opts.FollowUpward)]) ∧
    ValidateCountry (ToUpper code) opts net = ValidateCountry code opts net ∧
    ToUpper (ToUpper code) = ToUpper code := by
  have hup : goLen (ToUpper code) = 2 := by
    rw [goLen_ToUpper_ascii code ha]
    exact h
  have h2 : ¬ (goLen code ≠ 2) := by omega
  have h2u : ¬ (goLen (ToUpper code) ≠ 2) := by omega
  refine ⟨?_, ?_, ToUpper_idem code⟩
  · unfold ValidateCountry
    rw [if_neg h2]
    cases hp : post net <;> simp
  · unfold ValidateCountry
    rw [if_neg h2u, if_neg h2, ToUpper_idem]

/-- Witness for the amended C9 at code "us" (whose uppercased form is
"US"). -/
theorem validateCountry_uppercases_witness :
    allASCII "us" = true ∧
    goLen "us" = 2 ∧
    (ValidateCountry "us" ⟨false⟩ (PostOutcome.transportError "refused")).sent =
      some ("/api/validate/country",
        [("code", JsonVal.str (ToUpper "us")),
         ("follow_upward", JsonVal.bool false)]) ∧
    ValidateCountry (ToUpper "us") ⟨false⟩ (PostOutcome.transportError "refused") =
      ValidateCountry "us" ⟨false⟩ (PostOutcome.transportError "refused") ∧
    ToUpper (ToUpper "us") = ToUpper "us" :=
  ⟨by decide, by decide,
   validateCountry_uppercases "us" ⟨false⟩ (PostOutcome.transportError "refused")
     (by decide) (by decide)⟩

/-- C10: `ValidateCountries` uppercases the caller's slice in place — on
the format-error path every well-shaped element before the first
offending one has already been uppercased while the rest is untouched,
and on the all-well-shaped path the whole slice is uppercased — whereas
`ValidateSubdivisions` copies into a fresh slice and leaves the caller's
codes slice unchanged on every path. -/
theorem codes_mutation_asymmetry :
    (∀ (pre : List String) (bad : String) (rest : List String)
        (opts : CountryOptions) (net : PostOutcome multiResult),
        (∀ c ∈ pre, goLen c = 2) → goLen bad ≠ 2 →
        (ValidateCountries (pre ++ bad :: rest) opts net).codesAfter =
          pre.map ToUpper ++ bad :: rest ∧
        (ValidateCountries (pre ++ bad :: rest) opts net).error ≠ none) ∧
    (∀ (codes : List String) (opts : CountryOptions)
        (net : PostOutcome multiResult),
        codes ≠ [] → (∀ c ∈ codes, goLen c = 2) →
        (ValidateCountries codes opts net).codesAfter = codes.map ToUpper) ∧
    (∀ (codes : List String) (country : String) (opts : SubdivisionOptions)
        (net : PostOutcome multiResult),
        (ValidateSubdivisions codes country opts net).codesAfter = codes) := by
  refine ⟨?_, ?_, ?_⟩
  · intro pre bad rest opts net hpre hbad
    have hlen : ¬ (pre ++ bad :: rest).length = 0 := by simp
    have hscan := upperScan_firstBad pre bad rest hpre hbad
    unfold ValidateCountries
    rw [if_neg hlen, hscan]
    simp
  · intro codes opts net hne hgood
    have hlen : ¬ codes.length = 0 := fun h0 => hne (List.length_eq_zero.mp h0)
    have hscan := upperScan_allGood codes hgood
    unfold ValidateCountries
    rw [if_neg hlen, hscan]
    cases hp : post net <;> simp [hp]
  · intro codes country opts net
    by_cases hc : goLen country ≠ 2
    · simp [ValidateSubdivisions, hc]
    · by_cases h0 : codes.length = 0
      · simp [ValidateSubdivisions, hc, h0]
      · cases hp : post net <;> simp [ValidateSubdivisions, hc, h0, hp]

/-- Witness for C10: on ["us", "BAD1", "ca"] the caller's slice comes
back as ["US", "BAD1", "ca"] together with the format error, and a
subdivision batch call leaves its codes slice untouched. -/
theorem codes_mutation_asymmetry_witness :
    (∀ c ∈ (["us"] : List String), goLen c = 2) ∧
    goLen "BAD1" ≠ 2 ∧
    (ValidateCountries ["us", "BAD1", "ca"] ⟨false⟩
        (PostOutcome.transportError "refused")).codesAfter =
      ["US", "BAD1", "ca"] ∧
    (ValidateCountries ["us", "BAD1", "ca"] ⟨false⟩
        (PostOutcome.transportError "refused")).error ≠ none ∧
    (ValidateSubdivisions ["us-ca"] "us" ⟨false, false⟩
        (PostOutcome.transportError "refused")).codesAfter = ["us-ca"] := by
  refine ⟨by decide, by decide, ?_, ?_, ?_⟩
  · exact (codes_mutation_asymmetry.1 ["us"] "BAD1" ["ca"] ⟨false⟩
      (PostOutcome.transportError "refused") (by decide) (by decide)).1
  · exact (codes_mutation_asymmetry.1 ["us"] "BAD1" ["ca"] ⟨false⟩
      (PostOutcome.transportError "refused") (by decide) (by decide)).2
  · exact codes_mutation_asymmetry.2.2 ["us-ca"] "us" ⟨false, false⟩
      (PostOutcome.transportError "refused")

end CountriesDB
